import Mathlib

/-
Shallow embedding of the configuration core of the SARC repository
(sarc/config.py): typed configuration records, cross-field defaulting,
the sentinel path resolver, the loader, the scoped current-configuration
holder, and the lazily cached external-service handles.

Conventions of the embedding:
- Python `None` becomes `Option.none`; optional fields are `Option` types.
- Paths are plain strings (pathlib's Path wraps a string; note that a
  Path object is always truthy in Python, while a str is falsy iff empty —
  both facts are reflected where the source tests truthiness).
- Process-wide mutable state (the `_config_folder` global and the
  `config_var` context variable) becomes explicit state passing through a
  `GlobalSt` record.
- Exceptions become `Except` results; the distinct exception classes of
  the source are the constructors of `Err`.
- The filesystem and the external JSON parser/validator (pydantic) are
  abstracted as parameters: a function classifying each path's content.
- Object construction by external client libraries (fabric Connection,
  PrometheusConnect, MongoClient) is modelled by an allocation counter:
  each construction returns a fresh handle identifier, so "the identical
  cached object" is expressible as handle-id equality plus an unchanged
  counter.
-/

/-- Python substring membership `pat in s`, on character lists: true iff
`pat` occurs contiguously in `l` (the empty pattern occurs everywhere). -/
def containsTok (l : List Char) (pat : List Char) : Bool :=
  match l with
  | [] => pat.isEmpty
  | _ :: rest => pat.isPrefixOf l || containsTok rest pat

/-- Fuelled worker for Python `str.replace`: scans left to right and
replaces each non-overlapping occurrence of `pat` by `rep`. The fuel is
the length of the scanned list, which bounds the number of steps. -/
def replaceTokFuel (pat rep : List Char) : Nat → List Char → List Char
  | 0, l => l
  | _ + 1, [] => []
  | fuel + 1, c :: rest =>
    if pat.isPrefixOf (c :: rest) && !pat.isEmpty then
      rep ++ replaceTokFuel pat rep fuel (rest.drop (pat.length - 1))
    else
      c :: replaceTokFuel pat rep fuel rest

/-- Python `pat in s` on strings. -/
def pyContains (s pat : String) : Bool := containsTok s.data pat.data

/-- Python `s.replace(pat, rep)` on strings. -/
def pyReplace (s pat rep : String) : String :=
  String.mk (replaceTokFuel pat.data rep.data s.data.length s.data)

/-- Python `str(x)` for an optional string: `str(None)` is the literal
text `None`. -/
def pyStr : Option String → String
  | none => "None"
  | some s => s

/-- pathlib's `Path(p).parent` rendered as a string: drop the last path
component; the parent of a single component is `.` (or `/` if absolute). -/
def parentDir (p : String) : String :=
  let comps := (p.splitOn "/").filter (fun c => c ≠ "")
  let isAbs := p.startsWith "/"
  match comps with
  | [] => if isAbs then "/" else "."
  | [_] => if isAbs then "/" else "."
  | _ => (if isAbs then "/" else "") ++ String.intercalate "/" comps.dropLast

/-- MongoConfig: connection string and database name (sarc/config.py). -/
structure MongoConfig where
  connection_string : String
  database_name : String
deriving DecidableEq

/-- LDAPConfig: directory-service connection parameters (sarc/config.py). -/
structure LDAPConfig where
  local_private_key_file : String
  local_certificate_file : String
  ldap_service_uri : String
  mongo_collection_name : String
  group_to_prof_json_path : Option String := none
  exceptions_json_path : Option String := none
deriving DecidableEq

/-- AccountMatchingConfig: three bookkeeping file paths (sarc/config.py). -/
structure AccountMatchingConfig where
  drac_members_csv_path : String
  drac_roles_csv_path : String
  make_matches_config : String
deriving DecidableEq

/-- ClusterConfig: one managed compute cluster (sarc/config.py). The
`timezone` field is stored post-validation (the `_timezone` validator
normalizes an identifier string to a resolved zone; the zone is modelled
by its identifier). The lazily cached handles live outside the record, in
`ClusterInst`, mirroring the fact that pydantic excludes cached
properties from fields, serialization and equality. -/
structure ClusterConfig where
  host : String
  timezone : String
  prometheus_url : Option String := none
  prometheus_headers_file : Option String := none
  name : Option String := none
  sacct_bin : String := "sacct"
  accounts : Option (List String) := none
  sshconfig : Option String := none
  duc_inodes_command : Option String := none
  duc_storage_command : Option String := none
  diskusage_report_command : Option String := none
deriving DecidableEq

/-- Config: the root record (sarc/config.py). `clusters` keeps the JSON
object's declaration order as an association list. `sshconfig` and
`cache` are stored post-validation (the `_absolute_path` validator). -/
structure Config where
  mongo : MongoConfig
  ldap : LDAPConfig
  account_matching : AccountMatchingConfig
  sshconfig : Option String := none
  cache : Option String := none
  clusters : List (String × ClusterConfig)
deriving DecidableEq

/-- One step of the `_complete_cluster_fields` validator body for a single
entry `(key, cluster)`: `if not cluster.name: cluster.name = name` — a
Python str is falsy iff it is empty, and the unset default is None — then
`if not cluster.sshconfig and "sshconfig" in values: cluster.sshconfig =
values["sshconfig"]` — sshconfig holds a Path, and a Path object is never
falsy, so the test succeeds exactly on None; `values` always contains the
root `sshconfig` when a Config is actually produced, since that field
validates before `clusters`. -/
def completeOneCluster (rootSsh : Option String) (key : String)
    (c : ClusterConfig) : ClusterConfig :=
  let c1 := if c.name = none ∨ c.name = some "" then { c with name := some key } else c
  if c1.sshconfig = none then { c1 with sshconfig := rootSsh } else c1

/-- The `_complete_cluster_fields` validator of Config, value-level view:
every entry of the clusters mapping is completed in declaration order. -/
def completeClusterFields (rootSsh : Option String)
    (clusters : List (String × ClusterConfig)) : List (String × ClusterConfig) :=
  clusters.map (fun kc => (kc.1, completeOneCluster rootSsh kc.1 kc.2))

/-- The `_complete_cluster_fields` validator, heap-level view, making the
in-place mutation observable: the mapping holds references (numbers) into
a heap of ClusterConfig objects; each entry's referent is updated in the
heap and the mapping itself — the same keys paired with the same
references — is returned unchanged, exactly as the Python validator
returns the dict it was given after assigning to its values' attributes. -/
def completeClustersHeap (rootSsh : Option String) :
    List (String × Nat) → (Nat → ClusterConfig) →
      List (String × Nat) × (Nat → ClusterConfig)
  | [], heap => ([], heap)
  | (k, r) :: rest, heap =>
    let heap1 := fun i => if i = r then completeOneCluster rootSsh k (heap r) else heap i
    let out := completeClustersHeap rootSsh rest heap1
    ((k, r) :: out.1, out.2)

/-- The sentinel token replaced by `relative_filepath` (sarc/config.py). -/
def selfTok : String := "$SELF"

/-- `relative_filepath(path)` (sarc/config.py), with the `_config_folder`
global passed explicitly: None maps to None; a path containing the
sentinel has every occurrence replaced by `str(_config_folder)`; any
other path is returned unchanged. -/
def relative_filepath (configFolder : Option String) :
    Option String → Option String
  | none => none
  | some path =>
    if pyContains path selfTok then
      some (pyReplace path selfTok (pyStr configFolder))
    else
      some path

/-- The exception taxonomy relevant to the embedded code paths:
ConfigurationError (sarc/config.py), pydantic's ValidationError raised by
`Config.parse_file` on a schema violation, the OSError from `open` on a
missing file, json.JSONDecodeError from `json.load` on malformed content,
and an arbitrary exception raised by user code inside a scope body. -/
inductive Err
  | configurationError (msg : String)
  | validationError
  | ioError
  | jsonDecodeError
  | userExc (msg : String)
deriving DecidableEq

/-- Classification of what `Config.parse_file` finds at an existing path,
abstracting the filesystem plus pydantic's JSON parsing and validation:
the content is malformed JSON, or is JSON that violates the schema, or
parses and validates to a Config (cross-field defaulting included). A
path mapped to `none` by the filesystem does not exist. -/
inductive FileKind
  | malformed
  | invalid
  | valid (c : Config)
deriving DecidableEq

/-- The process-wide mutable state of sarc/config.py: the `_config_folder`
global (initially None) and the `config_var` context variable (default
None). -/
structure GlobalSt where
  configFolder : Option String := none
  configVar : Option Config := none
deriving DecidableEq

/-- Leading literal of the file-not-found ConfigurationError message. -/
def notFoundPre : String := "Cannot read SARC configuration file: \x27"

/-- Name of the environment variable that selects the config file. -/
def envVarName : String := "SARC_CONFIG"

/-- Trailing literal of the file-not-found ConfigurationError message. -/
def notFoundSuf : String :=
  "\x27 Use the $" ++ envVarName ++ " environment variable to choose the config file."

/-- The full file-not-found message of `parse_config`. -/
def notFoundMsg (p : String) : String := notFoundPre ++ p ++ notFoundSuf

/-- The malformed-JSON message of `parse_config`. -/
def malformedMsg (p : String) : String :=
  "\x27" ++ p ++ "\x27 contains malformed JSON"

/-- `parse_config(config_path)` (sarc/config.py). The first statement of
the body assigns the path's parent directory to the `_config_folder`
global — before the existence check and before parsing — and no branch,
including the two error exits, ever restores the previous value. Then:
a missing file raises ConfigurationError naming the path and the
SARC_CONFIG variable; `Config.parse_file` raising json.JSONDecodeError on
malformed content is translated to ConfigurationError naming the path; a
schema violation propagates as pydantic's ValidationError untouched. -/
def parse_config (fs : String → Option FileKind) (p : String)
    (g : GlobalSt) : GlobalSt × Except Err Config :=
  let g1 := { g with configFolder := some (parentDir p) }
  match fs p with
  | none => (g1, .error (.configurationError (notFoundMsg p)))
  | some .malformed => (g1, .error (.configurationError (malformedMsg p)))
  | some .invalid => (g1, .error .validationError)
  | some (.valid c) => (g1, .ok c)

/-- The argument accepted by `using_config`: an already-built Config, or
a path to parse first. -/
inductive CfgOrPath
  | cfg (c : Config)
  | path (p : String)

/-- `using_config(cfg)` (sarc/config.py), a contextmanager generator with
a scope body modelled as a state-transforming computation that either
completes normally or raises. If given a path, `parse_config` runs first
(outside the managed region: a load failure propagates before anything is
installed). Then `token = config_var.set(cfg)` records the variable's
prior value and installs the new one, the body runs at the yield, and
`config_var.reset(token)` restores the recorded value. The generator has
no try/finally around the yield: when the body raises, the exception
propagates out of the generator at the yield point and the reset line is
never reached, so the state stays exactly as the body left it. A normal
exit of the with-block — which includes an early return from the
enclosing function — resumes the generator and runs the reset. -/
def using_config {A : Type} (fs : String → Option FileKind)
    (arg : CfgOrPath)
    (body : GlobalSt → GlobalSt × Except Err A)
    (g : GlobalSt) : GlobalSt × Except Err A :=
  match arg with
  | .path p =>
    match parse_config fs p g with
    | (g1, .error e) => (g1, .error e)
    | (g1, .ok c) =>
      let token := g1.configVar
      match body { g1 with configVar := some c } with
      | (g2, .ok a) => ({ g2 with configVar := token }, .ok a)
      | (g2, .error e) => (g2, .error e)
  | .cfg c =>
    let token := g.configVar
    match body { g with configVar := some c } with
    | (g2, .ok a) => ({ g2 with configVar := token }, .ok a)
    | (g2, .error e) => (g2, .error e)

/-- Two nested `using_config` scopes with Config arguments: the outer
installs `a`, the inner installs `b` and completes normally, and the
outer body reports which configuration is current right after the inner
scope has exited; then the outer scope exits normally. -/
def nestedObservation (fs : String → Option FileKind) (a b : Config)
    (g : GlobalSt) : GlobalSt × Except Err (Option Config) :=
  using_config fs (.cfg a)
    (fun g1 =>
      let r := using_config fs (.cfg b) (fun g2 => (g2, .ok ())) g1
      (r.1, .ok r.1.configVar))
    g

/-- An external-service handle, identified by its allocation number: the
construction of a fabric Connection, a PrometheusConnect or a Mongo
database object is modelled as drawing a fresh identifier, so two
independently constructed handles are never equal. -/
def Handle : Type := Nat

instance : DecidableEq Handle := inferInstanceAs (DecidableEq Nat)

instance (n : Nat) : OfNat Handle n := ⟨n⟩

/-- A ClusterConfig instance at runtime: its fields together with the two
cached_property slots (empty until the first successful computation;
cached_property stores nothing when the computation raises). -/
structure ClusterInst where
  cfg : ClusterConfig
  sshCache : Option Handle := none
  promCache : Option Handle := none
deriving DecidableEq

/-- A MongoConfig instance at runtime with its cached_property slot. -/
structure MongoInst where
  cfg : MongoConfig
  dbCache : Option Handle := none
deriving DecidableEq

/-- The `ssh` cached_property of ClusterConfig. On a cache hit the stored
handle is returned with nothing reconstructed. Otherwise a fabric config
is built — reading the ssh-config file when one is set, which raises an
OSError if that file does not exist (`SSHConfig.from_path`) — and a
Connection is constructed, cached and returned. `fs` maps a path to its
content if the file exists; `al` is the allocation counter. -/
def sshAccess (fs : String → Option String) (inst : ClusterInst)
    (al : Nat) : Except Err Handle × ClusterInst × Nat :=
  match inst.sshCache with
  | some h => (.ok h, inst, al)
  | none =>
    match inst.cfg.sshconfig with
    | some p =>
      match fs p with
      | none => (.error .ioError, inst, al)
      | some _ => (.ok al, { inst with sshCache := some al }, al + 1)
    | none => (.ok al, { inst with sshCache := some al }, al + 1)

/-- The message of the ConfigurationError raised by the `prometheus`
accessor when no URL is configured; the cluster is named via f-string
interpolation of `self.name` (so a None name prints as `None`). -/
def noPromMsg (clusterName : Option String) : String :=
  "No prometheus URL provided for cluster \x27" ++ pyStr clusterName ++ "\x27"

/-- The `prometheus` cached_property of ClusterConfig. On a cache miss the
source first reads the headers file when one is configured — `open`
raises an OSError if it is missing and `json.load` raises a
JSONDecodeError if its content is not JSON (`jsonOk` classifies content)
— and only then checks `prometheus_url`, raising ConfigurationError
naming the cluster when it is None; on success a PrometheusConnect handle
is constructed, cached and returned. No failure is cached. -/
def promAccess (fs : String → Option String) (jsonOk : String → Bool)
    (inst : ClusterInst) (al : Nat) : Except Err Handle × ClusterInst × Nat :=
  match inst.promCache with
  | some h => (.ok h, inst, al)
  | none =>
    let headersOk : Except Err Unit :=
      match inst.cfg.prometheus_headers_file with
      | some f =>
        match fs f with
        | none => .error .ioError
        | some body => if jsonOk body then .ok () else .error .jsonDecodeError
      | none => .ok ()
    match headersOk with
    | .error e => (.error e, inst, al)
    | .ok _ =>
      match inst.cfg.prometheus_url with
      | none => (.error (.configurationError (noPromMsg inst.cfg.name)), inst, al)
      | some _ => (.ok al, { inst with promCache := some al }, al + 1)

/-- The `database_instance` cached_property of MongoConfig: construct a
client and database handle on first call, cache it, and return the cached
handle on every later call. -/
def databaseAccess (inst : MongoInst) (al : Nat) : Handle × MongoInst × Nat :=
  match inst.dbCache with
  | some h => (h, inst, al)
  | none => (al, { inst with dbCache := some al }, al + 1)

/-- Keyword arguments accepted by `BaseModel.replace` on a MongoConfig:
each declared field may be supplied or omitted. -/
structure MongoPatch where
  connection_string : Option String := none
  database_name : Option String := none

/-- `BaseModel.replace` specialized to MongoConfig: the full field
mapping produced by `dict()` (cached properties excluded — they are not
fields here) is overlaid with the supplied keyword arguments and a new
instance is constructed from the merged mapping; MongoConfig has no
validators, so construction is plain field assembly. -/
def MongoConfig.replace (c : MongoConfig) (p : MongoPatch) : MongoConfig :=
  { connection_string := p.connection_string.getD c.connection_string,
    database_name := p.database_name.getD c.database_name }

/-- Keyword arguments accepted by `BaseModel.replace` on an
AccountMatchingConfig. -/
structure AccountMatchingPatch where
  drac_members_csv_path : Option String := none
  drac_roles_csv_path : Option String := none
  make_matches_config : Option String := none

/-- `BaseModel.replace` specialized to AccountMatchingConfig. -/
def AccountMatchingConfig.replace (c : AccountMatchingConfig)
    (p : AccountMatchingPatch) : AccountMatchingConfig :=
  { drac_members_csv_path := p.drac_members_csv_path.getD c.drac_members_csv_path,
    drac_roles_csv_path := p.drac_roles_csv_path.getD c.drac_roles_csv_path,
    make_matches_config := p.make_matches_config.getD c.make_matches_config }

/-- Keyword arguments accepted by `BaseModel.replace` on a ClusterConfig;
for an optional field the supplied value may itself be None. -/
structure ClusterPatch where
  host : Option String := none
  timezone : Option String := none
  prometheus_url : Option (Option String) := none
  prometheus_headers_file : Option (Option String) := none
  name : Option (Option String) := none
  sacct_bin : Option String := none
  accounts : Option (Option (List String)) := none
  sshconfig : Option (Option String) := none
  duc_inodes_command : Option (Option String) := none
  duc_storage_command : Option (Option String) := none
  diskusage_report_command : Option (Option String) := none

/-- `BaseModel.replace` specialized to ClusterConfig: `dict()` overlaid
with the replacements, then reconstruction; re-running the `_timezone`
validator on the already-resolved zone value is the identity, so
construction is field assembly. -/
def ClusterConfig.replace (c : ClusterConfig) (p : ClusterPatch) : ClusterConfig :=
  { host := p.host.getD c.host,
    timezone := p.timezone.getD c.timezone,
    prometheus_url := p.prometheus_url.getD c.prometheus_url,
    prometheus_headers_file := p.prometheus_headers_file.getD c.prometheus_headers_file,
    name := p.name.getD c.name,
    sacct_bin := p.sacct_bin.getD c.sacct_bin,
    accounts := p.accounts.getD c.accounts,
    sshconfig := p.sshconfig.getD c.sshconfig,
    duc_inodes_command := p.duc_inodes_command.getD c.duc_inodes_command,
    duc_storage_command := p.duc_storage_command.getD c.duc_storage_command,
    diskusage_report_command := p.diskusage_report_command.getD c.diskusage_report_command }

/-- pydantic construction of LDAPConfig from keyword arguments: the two
optional-path validators `_relative_group_to_prof` and
`_relative_exception` pass the supplied values through relative_filepath
with the current process-wide config folder. -/
def mkLDAPConfig (folder : Option String) (l : LDAPConfig) : LDAPConfig :=
  { l with
    group_to_prof_json_path := relative_filepath folder l.group_to_prof_json_path,
    exceptions_json_path := relative_filepath folder l.exceptions_json_path }

/-- Keyword arguments accepted by `BaseModel.replace` on an LDAPConfig. -/
structure LDAPPatch where
  local_private_key_file : Option String := none
  local_certificate_file : Option String := none
  ldap_service_uri : Option String := none
  mongo_collection_name : Option String := none
  group_to_prof_json_path : Option (Option String) := none
  exceptions_json_path : Option (Option String) := none

/-- `BaseModel.replace` specialized to LDAPConfig: `dict()` overlaid with
the replacements, then reconstruction — which re-runs the two path
validators on the merged values with the current config folder. -/
def LDAPConfig.replace (folder : Option String) (l : LDAPConfig)
    (p : LDAPPatch) : LDAPConfig :=
  mkLDAPConfig folder
    { local_private_key_file := p.local_private_key_file.getD l.local_private_key_file,
      local_certificate_file := p.local_certificate_file.getD l.local_certificate_file,
      ldap_service_uri := p.ldap_service_uri.getD l.ldap_service_uri,
      mongo_collection_name := p.mongo_collection_name.getD l.mongo_collection_name,
      group_to_prof_json_path := p.group_to_prof_json_path.getD l.group_to_prof_json_path,
      exceptions_json_path := p.exceptions_json_path.getD l.exceptions_json_path }

/-- pydantic construction of the root Config from keyword arguments:
MongoConfig and AccountMatchingConfig revalidate to themselves, the
nested LDAPConfig re-runs its path validators with the current config
folder, `_absolute_path` — the external `expanduser().absolute()`
normalization, abstracted as `norm`, with `value and ...` passing None
through — is applied to the root cache and sshconfig, and
`_complete_cluster_fields` then completes every cluster entry against
the validated root sshconfig. -/
def mkConfig (folder : Option String) (norm : String → String)
    (mongo : MongoConfig) (ldap : LDAPConfig) (am : AccountMatchingConfig)
    (sshconfig cache : Option String)
    (clusters : List (String × ClusterConfig)) : Config :=
  { mongo := mongo, ldap := mkLDAPConfig folder ldap, account_matching := am,
    sshconfig := sshconfig.map norm, cache := cache.map norm,
    clusters := completeClusterFields (sshconfig.map norm) clusters }

/-- Keyword arguments accepted by `BaseModel.replace` on the root
Config. -/
structure ConfigPatch where
  mongo : Option MongoConfig := none
  ldap : Option LDAPConfig := none
  account_matching : Option AccountMatchingConfig := none
  sshconfig : Option (Option String) := none
  cache : Option (Option String) := none
  clusters : Option (List (String × ClusterConfig)) := none

/-- `BaseModel.replace` specialized to the root Config: `dict()` (nested
records flattened to their field mappings) overlaid with the
replacements, then reconstruction — which re-runs every validator,
including the cross-field cluster defaulting. -/
def Config.replace (folder : Option String) (norm : String → String)
    (c : Config) (p : ConfigPatch) : Config :=
  mkConfig folder norm
    (p.mongo.getD c.mongo) (p.ldap.getD c.ldap)
    (p.account_matching.getD c.account_matching)
    (p.sshconfig.getD c.sshconfig) (p.cache.getD c.cache)
    (p.clusters.getD c.clusters)

/-- An optional stored path value is free of the sentinel token — true of
any value previously produced by relative_filepath, unless the earlier
replacement text itself reintroduced the sentinel — so re-running a path
validator on it is the identity. -/
def sentinelFreeOpt (o : Option String) : Prop :=
  ∀ s, o = some s → pyContains s selfTok = false

/-- A middle component is a contiguous substring of a three-part
concatenation, stated on the underlying character lists. -/
theorem data_infix_mid (a b c : String) : b.data <:+: (a ++ b ++ c).data :=
  ⟨a.data, c.data, by simp [String.data_append]⟩

/-- The right component is a contiguous substring of a two-part
concatenation, stated on the underlying character lists. -/
theorem data_infix_right (a b : String) : b.data <:+: (a ++ b).data :=
  ⟨a.data, [], by simp [String.data_append]⟩

/-- A MongoConfig value used as a concrete input. -/
def mongoDemo : MongoConfig :=
  { connection_string := "mongodb://localhost:27017", database_name := "sarc" }

/-- An LDAPConfig value used as a concrete input. -/
def ldapDemo : LDAPConfig :=
  { local_private_key_file := "key.pem", local_certificate_file := "cert.pem",
    ldap_service_uri := "ldaps://ldap.example", mongo_collection_name := "users" }

/-- An AccountMatchingConfig value used as a concrete input. -/
def amDemo : AccountMatchingConfig :=
  { drac_members_csv_path := "members.csv", drac_roles_csv_path := "roles.csv",
    make_matches_config := "matches.json" }

/-- A minimal ClusterConfig: only the required fields, everything else at
its declared default. -/
def clusterDemo : ClusterConfig :=
  { host := "login.mila.quebec", timezone := "America/Montreal" }

/-- A ClusterConfig that explicitly supplies its name and sshconfig. -/
def clusterNamed : ClusterConfig :=
  { host := "narval.calcul.quebec", timezone := "America/Montreal",
    name := some "narval", sshconfig := some "/home/sarc/.ssh/config" }

/-- A ClusterConfig whose name was explicitly supplied as the empty
string — a falsy value that is nonetheless not absent. -/
def clusterEmptyName : ClusterConfig :=
  { host := "login.mila.quebec", timezone := "America/Montreal", name := some "" }

/-- A ClusterConfig with a metrics URL but no headers file. -/
def clusterProm : ClusterConfig :=
  { host := "login.mila.quebec", timezone := "America/Montreal",
    prometheus_url := some "http://prometheus:9090", name := some "mila" }

/-- A ClusterConfig with no metrics URL, no headers file and a name. -/
def clusterNoUrl : ClusterConfig :=
  { host := "login.mila.quebec", timezone := "America/Montreal",
    name := some "mila" }

/-- A ClusterConfig with no metrics URL whose configured headers file
will turn out not to exist. -/
def clusterNoUrlBadHeaders : ClusterConfig :=
  { host := "login.mila.quebec", timezone := "America/Montreal",
    prometheus_headers_file := some "/missing/headers.json" }

/-- A complete root Config used as a concrete input. -/
def cfgDemo : Config :=
  { mongo := mongoDemo, ldap := ldapDemo, account_matching := amDemo,
    clusters := [("mila", clusterDemo)] }

/-- A second, distinct root Config. -/
def cfgDemo2 : Config :=
  { mongo := mongoDemo, ldap := ldapDemo, account_matching := amDemo,
    cache := some "/var/cache/sarc", clusters := [] }

/-- A second MongoConfig, used as a replacement value. -/
def mongoDemo2 : MongoConfig :=
  { connection_string := "mongodb://replica:27017", database_name := "sarc" }

/-- The completed form of the bare cluster under key `mila` with no root
sshconfig: its name is its key. -/
def clusterMila : ClusterConfig := { clusterDemo with name := some "mila" }

/-- A validated root Config, as a successful parse produces it: no root
sshconfig or cache, sentinel-free ldap paths, clusters already in
completed form. -/
def cfgFix : Config :=
  { mongo := mongoDemo, ldap := ldapDemo, account_matching := amDemo,
    clusters := [("mila", clusterMila)] }

/-- A filesystem with no files at all. -/
def fsEmpty : String → Option FileKind := fun _ => none

/-- A filesystem holding one file of malformed JSON. -/
def fsBad : String → Option FileKind :=
  fun q => if q = "/etc/sarc/bad.json" then some FileKind.malformed else none

/-- A filesystem (for the handle accessors) with no files at all. -/
def fsNoFiles : String → Option String := fun _ => none

/-- The initial process state: no config folder recorded, no current
configuration installed. -/
def gInit : GlobalSt := {}

/-- A filesystem holding one well-formed, schema-valid config file. -/
def fsGood : String → Option FileKind :=
  fun q => if q = "/etc/sarc/sarc.json" then some (FileKind.valid cfgDemo2) else none

/-- The headers file of a cluster, when one is configured, exists and
holds valid JSON — the precondition under which the prometheus accessor
reaches its URL check. -/
def headersReadable (fs : String → Option String) (jsonOk : String → Bool)
    (c : ClusterConfig) : Prop :=
  ∀ f, c.prometheus_headers_file = some f → ∃ b, fs f = some b ∧ jsonOk b = true

/-- Discriminator: does an accessor outcome consist of a raised
ConfigurationError? -/
def isConfigurationError : Except Err Handle → Bool
  | .error (.configurationError _) => true
  | _ => false

/-- Claim C7: the path resolver maps None to None; a path free of the
sentinel token is returned unchanged, so resolution is idempotent on
sentinel-free paths; and for a fixed current config directory a
sentinel-bearing path resolves deterministically to the path with the
sentinel replaced by that directory. -/
theorem relative_filepath_spec (folder : Option String) (p q : String)
    (hp : pyContains p selfTok = false) (hq : pyContains q selfTok = true) :
    relative_filepath folder none = none
    ∧ relative_filepath folder (some p) = some p
    ∧ relative_filepath folder (relative_filepath folder (some p)) = some p
    ∧ relative_filepath folder (some q)
        = some (pyReplace q selfTok (pyStr folder)) := by
  refine ⟨rfl, ?_, ?_, ?_⟩
  · simp [relative_filepath, hp]
  · simp [relative_filepath, hp]
  · simp [relative_filepath, hq]

/-- Concrete instantiation of the C7 theorem: the sentinel-free path
`cache/sarc.db` and the sentinel-bearing path `$SELF/headers.json`,
resolved against the directory `/etc/sarc`. -/
theorem relative_filepath_spec_witness :
    (pyContains "cache/sarc.db" selfTok = false
      ∧ pyContains "$SELF/headers.json" selfTok = true)
    ∧ (relative_filepath (some "/etc/sarc") none = none
      ∧ relative_filepath (some "/etc/sarc") (some "cache/sarc.db")
          = some "cache/sarc.db"
      ∧ relative_filepath (some "/etc/sarc")
          (relative_filepath (some "/etc/sarc") (some "cache/sarc.db"))
          = some "cache/sarc.db"
      ∧ relative_filepath (some "/etc/sarc") (some "$SELF/headers.json")
          = some (pyReplace "$SELF/headers.json" selfTok (pyStr (some "/etc/sarc")))) :=
  ⟨⟨by decide, by decide⟩,
    relative_filepath_spec (some "/etc/sarc") "cache/sarc.db" "$SELF/headers.json"
      (by decide) (by decide)⟩

/-- Claim C9: every call to parse_config — whatever the outcome: missing
file, malformed content, schema violation or success — overwrites the
process-wide sentinel-resolution directory with the parent directory of
its argument, and no exit path, the error exits included, restores the
previous value: the post-state directory depends only on the argument. -/
theorem parse_config_sets_folder (fs : String → Option FileKind)
    (p : String) (g : GlobalSt) :
    (parse_config fs p g).1.configFolder = some (parentDir p) := by
  unfold parse_config
  cases fs p with
  | none => rfl
  | some k => cases k <;> rfl

/-- Claim C8: parse_config on a path that names no existing file fails
with a ConfigurationError whose message contains the missing path and the
name of the SARC_CONFIG environment variable used to select the config
file. -/
theorem parse_config_missing_file (fs : String → Option FileKind)
    (p : String) (g : GlobalSt) (h : fs p = none) :
    (parse_config fs p g).2 = .error (.configurationError (notFoundMsg p))
    ∧ p.data <:+: (notFoundMsg p).data
    ∧ envVarName.data <:+: (notFoundMsg p).data := by
  refine ⟨?_, ?_, ?_⟩
  · unfold parse_config
    rw [h]
  · exact data_infix_mid notFoundPre p notFoundSuf
  · exact (data_infix_mid "\x27 Use the $" envVarName
        " environment variable to choose the config file.").trans
      (data_infix_right (notFoundPre ++ p) notFoundSuf)

/-- Concrete instantiation of the C8 theorem: loading
`/does/not/exist.json` from an empty filesystem. -/
theorem parse_config_missing_file_witness :
    fsEmpty "/does/not/exist.json" = none
    ∧ ((parse_config fsEmpty "/does/not/exist.json" gInit).2
        = .error (.configurationError (notFoundMsg "/does/not/exist.json"))
      ∧ ("/does/not/exist.json" : String).data
          <:+: (notFoundMsg "/does/not/exist.json").data
      ∧ envVarName.data <:+: (notFoundMsg "/does/not/exist.json").data) :=
  ⟨rfl, parse_config_missing_file fsEmpty "/does/not/exist.json" gInit rfl⟩

/-- Claim C3: parse_config on an existing file whose content is not
parseable as JSON fails with a ConfigurationError — not with any other
exception — whose message contains the offending path. (The source
translates the json.JSONDecodeError it expects from `Config.parse_file`
into this ConfigurationError.) -/
theorem parse_config_malformed (fs : String → Option FileKind)
    (p : String) (g : GlobalSt) (h : fs p = some FileKind.malformed) :
    (parse_config fs p g).2 = .error (.configurationError (malformedMsg p))
    ∧ p.data <:+: (malformedMsg p).data := by
  refine ⟨?_, ?_⟩
  · unfold parse_config
    rw [h]
  · exact data_infix_mid "\x27" p "\x27 contains malformed JSON"

/-- Concrete instantiation of the C3 theorem: loading
`/etc/sarc/bad.json`, which exists but holds malformed JSON. -/
theorem parse_config_malformed_witness :
    fsBad "/etc/sarc/bad.json" = some FileKind.malformed
    ∧ ((parse_config fsBad "/etc/sarc/bad.json" gInit).2
        = .error (.configurationError (malformedMsg "/etc/sarc/bad.json"))
      ∧ ("/etc/sarc/bad.json" : String).data
          <:+: (malformedMsg "/etc/sarc/bad.json").data) :=
  ⟨rfl, parse_config_malformed fsBad "/etc/sarc/bad.json" gInit rfl⟩

/-- Claim C2, counterexample: a cluster entry that explicitly supplies
the empty string as its name does not keep its own value — the validator
tests truthiness, not presence, so the supplied empty name is overwritten
with the map key. -/
theorem completeClusterFields_keeps_supplied_false :
    clusterEmptyName.name = some ""
    ∧ completeClusterFields none [("mila", clusterEmptyName)]
        = [("mila", { clusterEmptyName with name := some "mila" })]
    ∧ ({ clusterEmptyName with name := some "mila" } : ClusterConfig).name
        ≠ clusterEmptyName.name := by
  refine ⟨rfl, ?_, by decide⟩
  decide

/-- Claim C2 as amended: after cross-field defaulting, the entry at any
position of the clusters mapping is its key paired with the completed
cluster; a cluster without an explicit name is named after its key and a
cluster without an explicit sshconfig inherits the root sshconfig (which
may itself be absent), while a cluster that supplied a non-empty name
keeps it and a cluster that supplied an sshconfig keeps it. -/
theorem completeClusterFields_defaults (rootSsh : Option String)
    (cs1 cs2 : List (String × ClusterConfig)) (i j : Nat)
    (k1 k2 s q : String) (c1 c2 : ClusterConfig)
    (h1 : cs1[i]? = some (k1, c1)) (hn1 : c1.name = none)
    (hs1 : c1.sshconfig = none)
    (h2 : cs2[j]? = some (k2, c2)) (hn2 : c2.name = some s) (hne : s ≠ "")
    (hs2 : c2.sshconfig = some q) :
    ((completeClusterFields rootSsh cs1)[i]?
        = some (k1, completeOneCluster rootSsh k1 c1)
      ∧ (completeOneCluster rootSsh k1 c1).name = some k1
      ∧ (completeOneCluster rootSsh k1 c1).sshconfig = rootSsh)
    ∧ ((completeClusterFields rootSsh cs2)[j]?
        = some (k2, completeOneCluster rootSsh k2 c2)
      ∧ (completeOneCluster rootSsh k2 c2).name = some s
      ∧ (completeOneCluster rootSsh k2 c2).sshconfig = some q) := by
  refine ⟨⟨?_, ?_, ?_⟩, ⟨?_, ?_, ?_⟩⟩
  · simp [completeClusterFields, h1]
  · simp [completeOneCluster, hn1, hs1]
  · simp [completeOneCluster, hn1, hs1]
  · simp [completeClusterFields, h2]
  · simp [completeOneCluster, hn2, hne, hs2]
  · simp [completeOneCluster, hn2, hne, hs2]

/-- Concrete instantiation of the amended C2 theorem: a one-entry mapping
with a bare cluster under key `mila` and root sshconfig `/root/ssh`, and
a one-entry mapping whose cluster supplied name `narval` and its own
sshconfig. -/
theorem completeClusterFields_defaults_witness :
    ([("mila", clusterDemo)].get? 0 = some ("mila", clusterDemo)
      ∧ clusterDemo.name = none
      ∧ clusterDemo.sshconfig = none
      ∧ [("narval", clusterNamed)].get? 0 = some ("narval", clusterNamed)
      ∧ clusterNamed.name = some "narval"
      ∧ "narval" ≠ ""
      ∧ clusterNamed.sshconfig = some "/home/sarc/.ssh/config")
    ∧ (((completeClusterFields (some "/root/ssh") [("mila", clusterDemo)])[0]?
        = some ("mila", completeOneCluster (some "/root/ssh") "mila" clusterDemo)
      ∧ (completeOneCluster (some "/root/ssh") "mila" clusterDemo).name = some "mila"
      ∧ (completeOneCluster (some "/root/ssh") "mila" clusterDemo).sshconfig
          = some "/root/ssh")
    ∧ ((completeClusterFields (some "/root/ssh") [("narval", clusterNamed)])[0]?
        = some ("narval", completeOneCluster (some "/root/ssh") "narval" clusterNamed)
      ∧ (completeOneCluster (some "/root/ssh") "narval" clusterNamed).name
          = some "narval"
      ∧ (completeOneCluster (some "/root/ssh") "narval" clusterNamed).sshconfig
          = some "/home/sarc/.ssh/config")) :=
  ⟨⟨rfl, rfl, rfl, rfl, rfl, by decide, rfl⟩,
    completeClusterFields_defaults (some "/root/ssh")
      [("mila", clusterDemo)] [("narval", clusterNamed)] 0 0
      "mila" "narval" "narval" "/home/sarc/.ssh/config" clusterDemo clusterNamed
      rfl rfl rfl rfl rfl (by decide) rfl⟩

/-- Claim C10: the defaulting validator tests truthiness, so a cluster
entry constructed with the empty string as its name is renamed to its map
key exactly as if no name had been supplied — the completed record is
identical in the two cases — and the validator mutates the supplied
mapping's ClusterConfig values in place: the returned mapping is the
input mapping itself (same keys paired with the same references), and
after the call the heap cell behind an entry's reference holds the
completed record. -/
theorem completeClusterFields_falsy (rootSsh : Option String) (k : String)
    (c : ClusterConfig) (h : c.name = some "")
    (ks : List (String × Nat)) (heap : Nat → ClusterConfig) (r : Nat) :
    (completeOneCluster rootSsh k c).name = some k
    ∧ completeOneCluster rootSsh k c
        = completeOneCluster rootSsh k { c with name := none }
    ∧ (completeClustersHeap rootSsh ks heap).1 = ks
    ∧ (completeClustersHeap rootSsh [(k, r)] heap).2 r
        = completeOneCluster rootSsh k (heap r) := by
  refine ⟨?_, ?_, ?_, ?_⟩
  · simp [completeOneCluster, h]
    split <;> rfl
  · simp [completeOneCluster, h]
  · induction ks generalizing heap with
    | nil => rfl
    | cons kr rest ih => simp [completeClustersHeap, ih]
  · simp [completeClustersHeap]

/-- Concrete instantiation of the C10 theorem: the empty-named cluster
under key `mila`, with a one-cell heap. -/
theorem completeClusterFields_falsy_witness :
    clusterEmptyName.name = some ""
    ∧ ((completeOneCluster none "mila" clusterEmptyName).name = some "mila"
      ∧ completeOneCluster none "mila" clusterEmptyName
          = completeOneCluster none "mila" { clusterEmptyName with name := none }
      ∧ (completeClustersHeap none [("mila", 0)] (fun _ => clusterEmptyName)).1
          = [("mila", 0)]
      ∧ (completeClustersHeap none [("mila", 0)] (fun _ => clusterEmptyName)).2 0
          = completeOneCluster none "mila" ((fun _ => clusterEmptyName) 0)) :=
  ⟨rfl, completeClusterFields_falsy none "mila" clusterEmptyName rfl
    [("mila", 0)] (fun _ => clusterEmptyName) 0⟩

/-- Claim C6, counterexample: on the root Config, replace with a single
overridden field does not differ from the original in that field alone:
overriding the root sshconfig re-runs `_complete_cluster_fields` on
reconstruction, which rewrites every cluster entry that had inherited
the root value, so the clusters field changes as well. -/
theorem replace_config_counterexample :
    (Config.replace none (fun s => s) cfgFix
        { sshconfig := some (some "/srv/ssh_config") }).sshconfig
      = some "/srv/ssh_config"
    ∧ (Config.replace none (fun s => s) cfgFix
        { sshconfig := some (some "/srv/ssh_config") }).clusters
      ≠ cfgFix.clusters := by
  refine ⟨rfl, ?_⟩
  decide

/-- Claim C6 as amended: replace never mutates the original — it builds a
new record from the merged field mapping. For MongoConfig, ClusterConfig
and AccountMatchingConfig, replace with no overrides reproduces the
record and each field of the result is the override when one was supplied
and the original value otherwise, so a single-field override differs from
the original in that field alone. For LDAPConfig, whose reconstruction
re-runs the path validators, the same holds whenever the stored optional
paths are sentinel-free (as any normally validated record's are), with an
overriding path value stored after passing through the resolver. For the
root Config, whose reconstruction re-runs every validator, replace with
no overrides reproduces any validated instance (normalization-stable root
paths, sentinel-free ldap paths, completed clusters), and overriding a
field without cross-field interaction, such as mongo, differs only in
that field — but overriding the root sshconfig also rewrites the cluster
entries that inherited it (see the counterexample), so a single-field
override of the root record does not in general differ only in that
field. -/
theorem replace_spec (m : MongoConfig) (c : ClusterConfig)
    (a : AccountMatchingConfig) (pm : MongoPatch) (pc : ClusterPatch)
    (pa : AccountMatchingPatch) (folder : Option String)
    (norm : String → String) (l : LDAPConfig) (cf : Config)
    (m2 : MongoConfig) (v w : String)
    (hgp : sentinelFreeOpt l.group_to_prof_json_path)
    (hex : sentinelFreeOpt l.exceptions_json_path)
    (hgp2 : sentinelFreeOpt cf.ldap.group_to_prof_json_path)
    (hex2 : sentinelFreeOpt cf.ldap.exceptions_json_path)
    (hssh : cf.sshconfig.map norm = cf.sshconfig)
    (hcache : cf.cache.map norm = cf.cache)
    (hcl : completeClusterFields cf.sshconfig cf.clusters = cf.clusters) :
    m.replace {} = m
    ∧ c.replace {} = c
    ∧ a.replace {} = a
    ∧ (m.replace pm).connection_string
        = pm.connection_string.getD m.connection_string
    ∧ (m.replace pm).database_name = pm.database_name.getD m.database_name
    ∧ (c.replace pc).host = pc.host.getD c.host
    ∧ (c.replace pc).timezone = pc.timezone.getD c.timezone
    ∧ (c.replace pc).prometheus_url = pc.prometheus_url.getD c.prometheus_url
    ∧ (c.replace pc).prometheus_headers_file
        = pc.prometheus_headers_file.getD c.prometheus_headers_file
    ∧ (c.replace pc).name = pc.name.getD c.name
    ∧ (c.replace pc).sacct_bin = pc.sacct_bin.getD c.sacct_bin
    ∧ (c.replace pc).accounts = pc.accounts.getD c.accounts
    ∧ (c.replace pc).sshconfig = pc.sshconfig.getD c.sshconfig
    ∧ (c.replace pc).duc_inodes_command
        = pc.duc_inodes_command.getD c.duc_inodes_command
    ∧ (c.replace pc).duc_storage_command
        = pc.duc_storage_command.getD c.duc_storage_command
    ∧ (c.replace pc).diskusage_report_command
        = pc.diskusage_report_command.getD c.diskusage_report_command
    ∧ (a.replace pa).drac_members_csv_path
        = pa.drac_members_csv_path.getD a.drac_members_csv_path
    ∧ (a.replace pa).drac_roles_csv_path
        = pa.drac_roles_csv_path.getD a.drac_roles_csv_path
    ∧ (a.replace pa).make_matches_config
        = pa.make_matches_config.getD a.make_matches_config
    ∧ LDAPConfig.replace folder l {} = l
    ∧ LDAPConfig.replace folder l { mongo_collection_name := some v }
        = { l with mongo_collection_name := v }
    ∧ LDAPConfig.replace folder l { group_to_prof_json_path := some (some w) }
        = { l with group_to_prof_json_path := relative_filepath folder (some w) }
    ∧ Config.replace folder norm cf {} = cf
    ∧ Config.replace folder norm cf { mongo := some m2 }
        = { cf with mongo := m2 } := by
  have egp : relative_filepath folder l.group_to_prof_json_path
      = l.group_to_prof_json_path := by
    cases hg : l.group_to_prof_json_path with
    | none => rfl
    | some s => simp [relative_filepath, hgp s hg]
  have eex : relative_filepath folder l.exceptions_json_path
      = l.exceptions_json_path := by
    cases hg : l.exceptions_json_path with
    | none => rfl
    | some s => simp [relative_filepath, hex s hg]
  have egp2 : relative_filepath folder cf.ldap.group_to_prof_json_path
      = cf.ldap.group_to_prof_json_path := by
    cases hg : cf.ldap.group_to_prof_json_path with
    | none => rfl
    | some s => simp [relative_filepath, hgp2 s hg]
  have eex2 : relative_filepath folder cf.ldap.exceptions_json_path
      = cf.ldap.exceptions_json_path := by
    cases hg : cf.ldap.exceptions_json_path with
    | none => rfl
    | some s => simp [relative_filepath, hex2 s hg]
  have eldap : mkLDAPConfig folder cf.ldap = cf.ldap := by
    unfold mkLDAPConfig
    rw [egp2, eex2]
  refine ⟨rfl, rfl, rfl, rfl, rfl, rfl, rfl, rfl, rfl, rfl, rfl, rfl, rfl,
    rfl, rfl, rfl, rfl, rfl, rfl, ?_, ?_, ?_, ?_, ?_⟩
  · simp [LDAPConfig.replace, mkLDAPConfig, egp, eex]
  · simp [LDAPConfig.replace, mkLDAPConfig, egp, eex]
  · simp [LDAPConfig.replace, mkLDAPConfig, eex]
  · simp [Config.replace, mkConfig, eldap, hssh, hcache, hcl]
  · simp [Config.replace, mkConfig, eldap, hssh, hcache, hcl]

/-- Concrete instantiation of the amended C6 theorem: the demo records
with empty patches, the demo LDAPConfig under the folder /etc/sarc with a
collection-name override and a sentinel-bearing path override, and the
validated demo Config with the identity path normalization and a mongo
override. -/
theorem replace_spec_witness :
    (sentinelFreeOpt ldapDemo.group_to_prof_json_path
      ∧ sentinelFreeOpt ldapDemo.exceptions_json_path
      ∧ sentinelFreeOpt cfgFix.ldap.group_to_prof_json_path
      ∧ sentinelFreeOpt cfgFix.ldap.exceptions_json_path
      ∧ cfgFix.sshconfig.map (fun s => s) = cfgFix.sshconfig
      ∧ cfgFix.cache.map (fun s => s) = cfgFix.cache
      ∧ completeClusterFields cfgFix.sshconfig cfgFix.clusters = cfgFix.clusters)
    ∧ (mongoDemo.replace {} = mongoDemo
      ∧ clusterDemo.replace {} = clusterDemo
      ∧ amDemo.replace {} = amDemo
      ∧ (mongoDemo.replace {}).connection_string = mongoDemo.connection_string
      ∧ (mongoDemo.replace {}).database_name = mongoDemo.database_name
      ∧ (clusterDemo.replace {}).host = clusterDemo.host
      ∧ (clusterDemo.replace {}).timezone = clusterDemo.timezone
      ∧ (clusterDemo.replace {}).prometheus_url = clusterDemo.prometheus_url
      ∧ (clusterDemo.replace {}).prometheus_headers_file
          = clusterDemo.prometheus_headers_file
      ∧ (clusterDemo.replace {}).name = clusterDemo.name
      ∧ (clusterDemo.replace {}).sacct_bin = clusterDemo.sacct_bin
      ∧ (clusterDemo.replace {}).accounts = clusterDemo.accounts
      ∧ (clusterDemo.replace {}).sshconfig = clusterDemo.sshconfig
      ∧ (clusterDemo.replace {}).duc_inodes_command
          = clusterDemo.duc_inodes_command
      ∧ (clusterDemo.replace {}).duc_storage_command
          = clusterDemo.duc_storage_command
      ∧ (clusterDemo.replace {}).diskusage_report_command
          = clusterDemo.diskusage_report_command
      ∧ (amDemo.replace {}).drac_members_csv_path = amDemo.drac_members_csv_path
      ∧ (amDemo.replace {}).drac_roles_csv_path = amDemo.drac_roles_csv_path
      ∧ (amDemo.replace {}).make_matches_config = amDemo.make_matches_config
      ∧ LDAPConfig.replace (some "/etc/sarc") ldapDemo {} = ldapDemo
      ∧ LDAPConfig.replace (some "/etc/sarc") ldapDemo
          { mongo_collection_name := some "ldap_users" }
          = { ldapDemo with mongo_collection_name := "ldap_users" }
      ∧ LDAPConfig.replace (some "/etc/sarc") ldapDemo
          { group_to_prof_json_path := some (some "$SELF/group_to_prof.json") }
          = { ldapDemo with group_to_prof_json_path :=
              relative_filepath (some "/etc/sarc") (some "$SELF/group_to_prof.json") }
      ∧ Config.replace (some "/etc/sarc") (fun s => s) cfgFix {} = cfgFix
      ∧ Config.replace (some "/etc/sarc") (fun s => s) cfgFix
          { mongo := some mongoDemo2 }
          = { cfgFix with mongo := mongoDemo2 }) :=
  ⟨⟨(fun _ h => nomatch h), (fun _ h => nomatch h), (fun _ h => nomatch h),
    (fun _ h => nomatch h), rfl, rfl, by decide⟩,
    replace_spec mongoDemo clusterDemo amDemo {} {} {} (some "/etc/sarc")
      (fun s => s) ldapDemo cfgFix mongoDemo2 "ldap_users"
      "$SELF/group_to_prof.json"
      (fun _ h => nomatch h) (fun _ h => nomatch h) (fun _ h => nomatch h)
      (fun _ h => nomatch h) rfl rfl (by decide)⟩

/-- Claim C4, counterexample: a ClusterConfig whose metrics URL is absent
does not always fail with a ConfigurationError — when its configured
headers file does not exist, the accessor fails with the OSError from
`open` instead, because the source reads the headers file before it ever
checks `prometheus_url`. -/
theorem prometheus_missing_url_counterexample :
    clusterNoUrlBadHeaders.prometheus_url = none
    ∧ promAccess fsNoFiles (fun _ => true)
        { cfg := clusterNoUrlBadHeaders } 0
      = (.error .ioError, { cfg := clusterNoUrlBadHeaders }, 0)
    ∧ isConfigurationError
        (promAccess fsNoFiles (fun _ => true)
          { cfg := clusterNoUrlBadHeaders } 0).1 = false :=
  ⟨rfl, rfl, rfl⟩

/-- Claim C4 as amended: for an instance whose metrics handle is not yet
cached, whose metrics URL is absent, and whose headers file — when one is
configured — exists and holds valid JSON, the prometheus accessor fails
with a ConfigurationError whose message names the cluster; the failure
leaves the instance untouched (nothing cached, nothing allocated), and a
later call on the same instance after the URL has been supplied
constructs, caches and returns a handle. -/
theorem prometheus_missing_url (fs : String → Option String)
    (jsonOk : String → Bool) (inst : ClusterInst) (al : Nat) (u : String)
    (hcache : inst.promCache = none)
    (hurl : inst.cfg.prometheus_url = none)
    (hheaders : headersReadable fs jsonOk inst.cfg) :
    promAccess fs jsonOk inst al
      = (.error (.configurationError (noPromMsg inst.cfg.name)), inst, al)
    ∧ (pyStr inst.cfg.name).data <:+: (noPromMsg inst.cfg.name).data
    ∧ promAccess fs jsonOk
        { inst with cfg := { inst.cfg with prometheus_url := some u } } al
      = (.ok al,
         { inst with cfg := { inst.cfg with prometheus_url := some u },
                     promCache := some al }, al + 1) := by
  refine ⟨?_,
    data_infix_mid "No prometheus URL provided for cluster \x27"
      (pyStr inst.cfg.name) "\x27", ?_⟩
  · cases hh : inst.cfg.prometheus_headers_file with
    | none => simp [promAccess, hcache, hh, hurl]
    | some f =>
      obtain ⟨b, hfs, hjs⟩ := hheaders f hh
      simp [promAccess, hcache, hh, hfs, hjs, hurl]
  · cases hh : inst.cfg.prometheus_headers_file with
    | none => simp [promAccess, hcache, hh]
    | some f =>
      obtain ⟨b, hfs, hjs⟩ := hheaders f hh
      simp [promAccess, hcache, hh, hfs, hjs]

/-- Concrete instantiation of the amended C4 theorem: a fresh instance of
the URL-less cluster `mila` with no headers file; after supplying a URL
the accessor succeeds. -/
theorem prometheus_missing_url_witness :
    (({ cfg := clusterNoUrl } : ClusterInst).promCache = none
      ∧ ({ cfg := clusterNoUrl } : ClusterInst).cfg.prometheus_url = none
      ∧ headersReadable fsNoFiles (fun _ => true)
          ({ cfg := clusterNoUrl } : ClusterInst).cfg)
    ∧ (promAccess fsNoFiles (fun _ => true) { cfg := clusterNoUrl } 0
        = (.error (.configurationError (noPromMsg clusterNoUrl.name)),
           { cfg := clusterNoUrl }, 0)
      ∧ (pyStr clusterNoUrl.name).data <:+: (noPromMsg clusterNoUrl.name).data
      ∧ promAccess fsNoFiles (fun _ => true)
          { cfg := { clusterNoUrl with prometheus_url := some "http://prometheus:9090" } } 0
        = (.ok 0,
           { cfg := { clusterNoUrl with prometheus_url := some "http://prometheus:9090" },
             promCache := some 0 }, 1)) :=
  ⟨⟨rfl, rfl, fun _ hf => nomatch hf⟩,
    prometheus_missing_url fsNoFiles (fun _ => true) { cfg := clusterNoUrl } 0
      "http://prometheus:9090" rfl rfl (fun _ hf => nomatch hf)⟩

/-- Claim C5: each lazy handle accessor caches its first successfully
constructed handle on the instance: after any successful call, a repeat
call on the resulting instance returns the very same handle and changes
nothing — neither the instance nor the allocation counter — so no second
independently constructed handle can ever be produced. Stated for the
ssh and prometheus accessors of ClusterConfig and the database accessor
of MongoConfig. -/
theorem handle_caching (fs : String → Option String) (jsonOk : String → Bool)
    (cin cin' pin pin' : ClusterInst) (mdb : MongoInst)
    (al al2 bl bl2 dl : Nat) (h h2 : Handle)
    (hssh : sshAccess fs cin al = (.ok h, cin', al2))
    (hprom : promAccess fs jsonOk pin bl = (.ok h2, pin', bl2)) :
    sshAccess fs cin' al2 = (.ok h, cin', al2)
    ∧ promAccess fs jsonOk pin' bl2 = (.ok h2, pin', bl2)
    ∧ databaseAccess (databaseAccess mdb dl).2.1 (databaseAccess mdb dl).2.2
        = databaseAccess mdb dl := by
  refine ⟨?_, ?_, ?_⟩
  · cases hc : cin.sshCache with
    | some h0 =>
      simp [sshAccess, hc] at hssh
      obtain ⟨rfl, rfl, rfl⟩ := hssh
      simp [sshAccess, hc]
    | none =>
      cases hp : cin.cfg.sshconfig with
      | some p =>
        cases hf : fs p with
        | none => simp [sshAccess, hc, hp, hf] at hssh
        | some content =>
          simp [sshAccess, hc, hp, hf] at hssh
          obtain ⟨rfl, rfl, rfl⟩ := hssh
          simp [sshAccess]
      | none =>
        simp [sshAccess, hc, hp] at hssh
        obtain ⟨rfl, rfl, rfl⟩ := hssh
        simp [sshAccess]
  · cases hc : pin.promCache with
    | some h0 =>
      simp [promAccess, hc] at hprom
      obtain ⟨rfl, rfl, rfl⟩ := hprom
      simp [promAccess, hc]
    | none =>
      cases hh : pin.cfg.prometheus_headers_file with
      | some f =>
        cases hf : fs f with
        | none => simp [promAccess, hc, hh, hf] at hprom
        | some b =>
          cases hj : jsonOk b with
          | false => simp [promAccess, hc, hh, hf, hj] at hprom
          | true =>
            cases hu : pin.cfg.prometheus_url with
            | none => simp [promAccess, hc, hh, hf, hj, hu] at hprom
            | some u =>
              simp [promAccess, hc, hh, hf, hj, hu] at hprom
              obtain ⟨rfl, rfl, rfl⟩ := hprom
              simp [promAccess]
      | none =>
        cases hu : pin.cfg.prometheus_url with
        | none => simp [promAccess, hc, hh, hu] at hprom
        | some u =>
          simp [promAccess, hc, hh, hu] at hprom
          obtain ⟨rfl, rfl, rfl⟩ := hprom
          simp [promAccess]
  · cases hd : mdb.dbCache with
    | some h0 => simp [databaseAccess, hd]
    | none => simp [databaseAccess, hd]

/-- Concrete instantiation of the C5 theorem: a first ssh call on a fresh
instance of the bare cluster, a first prometheus call on a fresh instance
of the URL-bearing cluster, and a database call on a fresh Mongo
instance. -/
theorem handle_caching_witness :
    (sshAccess fsNoFiles ({ cfg := clusterDemo } : ClusterInst) 0
        = (.ok 0, { cfg := clusterDemo, sshCache := some 0 }, 1)
      ∧ promAccess fsNoFiles (fun _ => true) ({ cfg := clusterProm } : ClusterInst) 5
        = (.ok 5, { cfg := clusterProm, promCache := some 5 }, 6))
    ∧ (sshAccess fsNoFiles { cfg := clusterDemo, sshCache := some 0 } 1
        = (.ok 0, { cfg := clusterDemo, sshCache := some 0 }, 1)
      ∧ promAccess fsNoFiles (fun _ => true)
          { cfg := clusterProm, promCache := some 5 } 6
        = (.ok 5, { cfg := clusterProm, promCache := some 5 }, 6)
      ∧ databaseAccess (databaseAccess ({ cfg := mongoDemo } : MongoInst) 2).2.1
          (databaseAccess ({ cfg := mongoDemo } : MongoInst) 2).2.2
        = databaseAccess ({ cfg := mongoDemo } : MongoInst) 2) :=
  ⟨⟨rfl, rfl⟩,
    handle_caching fsNoFiles (fun _ => true)
      { cfg := clusterDemo } { cfg := clusterDemo, sshCache := some 0 }
      { cfg := clusterProm } { cfg := clusterProm, promCache := some 5 }
      { cfg := mongoDemo } 0 1 5 6 2 0 5 rfl rfl⟩

/-- Claim C1, counterexample: entering a scope with a Config from the
initial state and raising inside the scope body leaves that Config
installed after the exceptional exit: the contextmanager has no
try/finally around its yield, so the reset is skipped and the previous
current configuration (None here) is not restored. -/
theorem using_config_exception_counterexample :
    using_config fsEmpty (.cfg cfgDemo)
        (fun g => (g, (.error (.userExc "boom") : Except Err Unit))) gInit
      = ({ configVar := some cfgDemo }, .error (.userExc "boom"))
    ∧ ({ configVar := some cfgDemo } : GlobalSt).configVar ≠ gInit.configVar :=
  ⟨rfl, by simp [gInit]⟩

/-- Claim C1 as amended: a scope whose body completes normally — which is
how an early return from the enclosing function exits a with-block —
restores exactly the configuration that was current at entry, both when
entered with a Config value and when entered with a path whose parse
succeeds; nested scopes therefore compose: after the inner scope exits
the outer scope's value is current again, and after the outer scope exits
the pre-outer value is current. When the body raises, however, the reset
after the yield never runs and the previous value is not restored (see
the counterexample). -/
theorem using_config_restores {A : Type} (fs : String → Option FileKind)
    (c cp ca cb : Config) (p : String)
    (body body2 : GlobalSt → GlobalSt × Except Err A)
    (g gp gn g2 g3 : GlobalSt) (a a2 : A)
    (hbody : body { g with configVar := some c } = (g2, .ok a))
    (hfs : fs p = some (FileKind.valid cp))
    (hbody2 : body2 { gp with configFolder := some (parentDir p), configVar := some cp } = (g3, .ok a2)) :
    using_config fs (.cfg c) body g
      = ({ g2 with configVar := g.configVar }, .ok a)
    ∧ using_config fs (.path p) body2 gp
      = ({ g3 with configVar := gp.configVar }, .ok a2)
    ∧ nestedObservation fs ca cb gn = (gn, .ok (some ca)) := by
  refine ⟨?_, ?_, ?_⟩
  · simp [using_config, hbody]
  · simp [using_config, parse_config, hfs, hbody2]
  · simp [nestedObservation, using_config]

/-- Concrete instantiation of the amended C1 theorem: a trivial body with
the demo Config from the initial state, a path-entered scope over the
one-file filesystem, and the two demo Configs nested from the initial
state. -/
theorem using_config_restores_witness :
    ((fun g => (g, (.ok 0 : Except Err Nat)))
        { gInit with configVar := some cfgDemo }
        = ({ gInit with configVar := some cfgDemo }, .ok 0)
      ∧ fsGood "/etc/sarc/sarc.json" = some (FileKind.valid cfgDemo2)
      ∧ (fun g => (g, (.ok 0 : Except Err Nat)))
          { gInit with configFolder := some (parentDir "/etc/sarc/sarc.json"), configVar := some cfgDemo2 }
        = ({ gInit with configFolder := some (parentDir "/etc/sarc/sarc.json"), configVar := some cfgDemo2 }, .ok 0))
    ∧ (using_config fsGood (.cfg cfgDemo)
          (fun g => (g, (.ok 0 : Except Err Nat))) gInit
        = (gInit, .ok 0)
      ∧ using_config fsGood (.path "/etc/sarc/sarc.json")
          (fun g => (g, (.ok 0 : Except Err Nat))) gInit
        = ({ gInit with configFolder := some (parentDir "/etc/sarc/sarc.json") },
           .ok 0)
      ∧ nestedObservation fsGood cfgDemo cfgDemo2 gInit
        = (gInit, .ok (some cfgDemo))) :=
  ⟨⟨rfl, by decide, rfl⟩,
    using_config_restores fsGood cfgDemo cfgDemo2 cfgDemo cfgDemo2
      "/etc/sarc/sarc.json"
      (fun g => (g, .ok 0)) (fun g => (g, .ok 0))
      gInit gInit gInit { gInit with configVar := some cfgDemo }
      { gInit with configFolder := some (parentDir "/etc/sarc/sarc.json"), configVar := some cfgDemo2 } 0 0
      rfl (by decide) rfl⟩
